import Mathlib

/-!
Shallow embedding of `internal/appsec/appsec.go` from dd-trace-go: the AppSec
lifecycle manager. External collaborators (libddwaf, config loading, the remote
configuration client) are modelled by an `Env` record of their outcomes; side
effects on shared resources are recorded as an event trace in the global state,
so that ordering claims can be stated about it.
-/

namespace DDTraceGo.Appsec

/-- Observable side effects on shared resources, recorded in order. `id` is the
manager-instance identifier, `h` a native engine handle identifier. -/
inductive Event where
  | startRCEv (id : Nat)
  | stopRCEv (id : Nat)
  | limiterStartEv (id : Nat)
  | limiterStopEv (id : Nat)
  | swapRootEv (r : Option Nat)
  | closeHandleEv (h : Nat)
  | setStartedFalseEv (id : Nat)
  | setStartedTrueEv (id : Nat)
  | enableRCBlockingEv (id : Nat)
  | disableRCBlockingEv (id : Nat)
  deriving DecidableEq, Repr

/-- The `appsec` struct of appsec.go: `{cfg; limiter; wafHandle; started}`.
`limiterRunning` models whether the token ticker's background activity is
running; `wafHandle` is the nullable engine handle (identified by a `Nat`);
`rcBlocking` and `rcStarted` model the remote-configuration wiring state. -/
structure appsec where
  id : Nat
  limiterRunning : Bool
  wafHandle : Option Nat
  started : Bool
  rcBlocking : Bool
  rcStarted : Bool
  deriving DecidableEq, Repr

/-- Process-wide state: the `activeAppSec` global of appsec.go, the dyngo
operation-graph root (a single slot holding the attached hook's handle id, or
`none` when detached), and the trace of effects performed so far. -/
structure GState where
  activeAppSec : Option appsec
  root : Option Nat
  trace : List Event
  deriving DecidableEq, Repr

/-- Outcomes of the external collaborators consulted during `Start`:
`config.IsEnabled` (error flag, `enabled` and `set` booleans), `waf.Health`,
`config.NewConfig`, `startRC`, `enableRemoteActivation`, `waf.Load` (error flag
and `ok` boolean), and the engine-handle construction attempted by `swapWAF`
(`some h` on success, `none` on failure). -/
structure Env where
  isEnabledErr : Bool
  enabled : Bool
  set : Bool
  healthOk : Bool
  newConfigErr : Bool
  startRCErr : Bool
  enableRemActErr : Bool
  loadErr : Bool
  loadOk : Bool
  swapWAFNewHandle : Option Nat
  deriving DecidableEq, Repr

/-- Function `Enabled()` of appsec.go: `activeAppSec != nil && activeAppSec.started`. -/
def Enabled (g : GState) : Bool :=
  match g.activeAppSec with
  | none => false
  | some a => a.started

/-- Function `newAppSec(cfg)` of appsec.go: a fresh instance with only `cfg` set. -/
def newAppSec (id : Nat) : appsec :=
  { id := id, limiterRunning := false, wafHandle := none, started := false,
    rcBlocking := false, rcStarted := false }

/-- Modelled from the spec: `swapWAF` (SwapRuleset) is declared in appsec.go
(called by `start` and by remote-config callbacks) but its body is not under
src/. Per the spec it constructs a new engine handle from the ruleset; on
construction failure it leaves the existing handle untouched and returns the
error; on success it registers the new handle's hook as the registry root
(atomically replacing the previous root) and closes the previous handle.
The ruleset is represented by its construction outcome `newH`. The returned
`Bool` is true when an error is returned. -/
def swapWAF (newH : Option Nat) (a : appsec) (g : GState) :
    appsec × GState × Bool :=
  match newH with
  | none => (a, g, true)
  | some h =>
    let g1 : GState :=
      { g with root := some h, trace := g.trace ++ [Event.swapRootEv (some h)] }
    let g2 : GState :=
      match a.wafHandle with
      | none => g1
      | some old => { g1 with trace := g1.trace ++ [Event.closeHandleEv old] }
    ({ a with wafHandle := some h }, g2, false)

/-- Method `(*appsec).start` of appsec.go. `waf.Load()` returning an error with
`ok == false` is fatal (return the error, no further mutation); an error with
`ok == true` is only logged. Then the limiter is created and started, the
initial `swapWAF` is performed (its error is returned as-is), RC blocking is
enabled and `started` is set. The returned `Bool` is true when an error is
returned; as in Go, mutations made before the error point persist. -/
def appsec.start (env : Env) (a : appsec) (g : GState) :
    appsec × GState × Bool :=
  if env.loadErr && !env.loadOk then (a, g, true)
  else
    let a1 : appsec := { a with limiterRunning := true }
    let g1 : GState := { g with trace := g.trace ++ [Event.limiterStartEv a.id] }
    match swapWAF env.swapWAFNewHandle a1 g1 with
    | (a2, g2, true) => (a2, g2, true)
    | (a2, g2, false) =>
      let a3 : appsec := { a2 with rcBlocking := true }
      let g3 : GState :=
        { g2 with trace := g2.trace ++ [Event.enableRCBlockingEv a.id] }
      let a4 : appsec := { a3 with started := true }
      let g4 : GState :=
        { g3 with trace := g3.trace ++ [Event.setStartedTrueEv a.id] }
      (a4, g4, false)

/-- Method `(*appsec).stop` of appsec.go: no-op when not started; otherwise clears
`started`, disables RC blocking, swaps the registry root to nil, closes and
nils the engine handle when present, and stops the limiter. -/
def appsec.stop (a : appsec) (g : GState) : appsec × GState :=
  if !a.started then (a, g)
  else
    let a1 : appsec := { a with started := false }
    let g1 : GState :=
      { g with trace := g.trace ++ [Event.setStartedFalseEv a.id] }
    let a2 : appsec := { a1 with rcBlocking := false }
    let g2 : GState :=
      { g1 with trace := g1.trace ++ [Event.disableRCBlockingEv a.id] }
    let g3 : GState :=
      { g2 with root := none, trace := g2.trace ++ [Event.swapRootEv none] }
    let step :=
      match a2.wafHandle with
      | none => (a2, g3)
      | some h =>
        ({ a2 with wafHandle := none },
         { g3 with trace := g3.trace ++ [Event.closeHandleEv h] })
    let a4 : appsec := { step.1 with limiterRunning := false }
    let g5 : GState :=
      { step.2 with trace := step.2.trace ++ [Event.limiterStopEv a.id] }
    (a4, g5)

/-- Function `setActiveAppSec` of appsec.go: under the exclusive lock, if an instance is
active it is torn down (`stopRC` then `stop`) before the new value is stored. -/
def setActiveAppSec (newA : Option appsec) (g : GState) : GState :=
  match g.activeAppSec with
  | none => { g with activeAppSec := newA }
  | some old =>
    let g1 : GState := { g with trace := g.trace ++ [Event.stopRCEv old.id] }
    let g2 : GState := (appsec.stop old g1).2
    { g2 with activeAppSec := newA }

/-- Package-level `Start` of appsec.go. Early returns: `config.IsEnabled`
error; explicitly disabled (`set && !enabled`); `waf.Health()` not ok;
`config.NewConfig` error. Then a fresh instance is created, `startRC` is
attempted (its error only logged), and either remote activation is enabled
(`!set`; on error `stopRC` and abandon) or `start()` is run (`set`; on error
`stopRC` and abandon); on success the instance is published. `newId` supplies
the fresh instance's identifier. -/
def Start (env : Env) (newId : Nat) (g : GState) : GState :=
  if env.isEnabledErr then g
  else if env.set && !env.enabled then g
  else if !env.healthOk then g
  else if env.newConfigErr then g
  else
    let a : appsec := { newAppSec newId with rcStarted := !env.startRCErr }
    let g1 : GState := { g with trace := g.trace ++ [Event.startRCEv newId] }
    if !env.set then
      if env.enableRemActErr then
        { g1 with trace := g1.trace ++ [Event.stopRCEv newId] }
      else setActiveAppSec (some a) g1
    else
      match appsec.start env a g1 with
      | (_, g2, true) => { g2 with trace := g2.trace ++ [Event.stopRCEv newId] }
      | (a2, g2, false) => setActiveAppSec (some a2) g2

/-- Package-level `Stop` of appsec.go: `setActiveAppSec(nil)`. -/
def Stop (g : GState) : GState :=
  setActiveAppSec none g

/-- Whether `(*appsec).start` returns an error, as a function of the
collaborator outcomes alone. -/
def startErrs (env : Env) : Bool :=
  (env.loadErr && !env.loadOk) || env.swapWAFNewHandle.isNone

/-- Predicate `allBefore p q t` holds when every `p`-event of `t` occurs strictly before
every `q`-event: no `p`-event appears at or after any `q`-event. -/
def allBefore (p q : Event → Bool) : List Event → Bool
  | [] => true
  | e :: rest =>
    (if q e then (rest.all fun x => !p x) && !p e else true) && allBefore p q rest

/-- Teardown effects of instance `id`: started-flag clear, RC-blocking
disable, limiter stop. -/
def isStopEffectOf (id : Nat) : Event → Bool
  | Event.setStartedFalseEv i => i == id
  | Event.disableRCBlockingEv i => i == id
  | Event.limiterStopEv i => i == id
  | _ => false

/-- Start effects of instance `id`: limiter start, RC-blocking enable,
started-flag set. -/
def isStartEffectOf (id : Nat) : Event → Bool
  | Event.limiterStartEv i => i == id
  | Event.enableRCBlockingEv i => i == id
  | Event.setStartedTrueEv i => i == id
  | _ => false

/-- The registry root after replaying a list of events from initial root `r0`:
each `swapRootEv` overwrites the single slot. -/
def rootAt (r0 : Option Nat) : List Event → Option Nat
  | [] => r0
  | Event.swapRootEv r :: rest => rootAt r rest
  | _ :: rest => rootAt r0 rest

/-- Control operations on a single manager instance, for sequences of
`start`/`stop` calls. -/
inductive MgrOp where
  | startOp (env : Env)
  | stopOp
  deriving Repr

/-- Run a sequence of `start`/`stop` calls against one instance. -/
def runMgr : List MgrOp → appsec → GState → appsec × GState
  | [], a, g => (a, g)
  | MgrOp.startOp env :: rest, a, g =>
    runMgr rest (appsec.start env a g).1 (appsec.start env a g).2.1
  | MgrOp.stopOp :: rest, a, g =>
    runMgr rest (appsec.stop a g).1 (appsec.stop a g).2

/-- The handle invariant: a started instance holds an engine handle. -/
def HandleInv (a : appsec) : Prop :=
  a.started = true → a.wafHandle.isSome = true

/-- A concrete environment where every collaborator succeeds and
`DD_APPSEC_ENABLED` is explicitly true; handle construction yields handle 8. -/
def envOK : Env :=
  { isEnabledErr := false, enabled := true, set := true, healthOk := true,
    newConfigErr := false, startRCErr := false, enableRemActErr := false,
    loadErr := false, loadOk := true, swapWAFNewHandle := some 8 }

/-- Like `envOK` but engine-handle construction fails in `swapWAF`. -/
def envSwapFail : Env :=
  { envOK with swapWAFNewHandle := none }

/-- The empty process state: no active instance, no hook attached. -/
def gEmpty : GState :=
  { activeAppSec := none, root := none, trace := [] }

/-- A concrete started instance (id 0) holding engine handle 7. -/
def aRunning : appsec :=
  { id := 0, limiterRunning := true, wafHandle := some 7, started := true,
    rcBlocking := true, rcStarted := true }

/-- A process state in which `aRunning` is the active, started instance. -/
def gActive : GState :=
  { activeAppSec := some aRunning, root := some 7, trace := [] }

/-- Claim C2: `Enabled()` returns true if and only if the process-wide active
instance is non-null and that instance's `started` flag is true. -/
theorem enabled_iff_active_started (g : GState) :
    Enabled g = true ↔ ∃ a, g.activeAppSec = some a ∧ a.started = true := by
  unfold Enabled
  cases h : g.activeAppSec with
  | none => simp
  | some a =>
    simp only [h]
    constructor
    · intro hs
      exact ⟨a, rfl, hs⟩
    · rintro ⟨b, hb, hs⟩
      cases hb
      exact hs

/-- Claim C3: a fatal `waf.Load` failure (`err != nil` with `ok == false`)
makes `start()` return an error with no further mutation of the instance or the
shared state; a degraded load (`err != nil` with `ok == true`) behaves exactly
as a clean load. -/
theorem start_load_failure (env : Env) (a : appsec) (g : GState) :
    (env.loadErr = true → env.loadOk = false →
      appsec.start env a g = (a, g, true))
    ∧ (env.loadOk = true →
      appsec.start { env with loadErr := true } a g
        = appsec.start { env with loadErr := false } a g) := by
  constructor
  · intro he ho
    simp [appsec.start, he, ho]
  · intro ho
    simp [appsec.start, ho]

/-- Witness for C3 at a concrete environment, instance and state. -/
theorem start_load_failure_witness :
    appsec.start
        { isEnabledErr := false, enabled := true, set := true, healthOk := true,
          newConfigErr := false, startRCErr := false, enableRemActErr := false,
          loadErr := true, loadOk := false, swapWAFNewHandle := some 8 }
        (newAppSec 0) { activeAppSec := none, root := none, trace := [] }
      = (newAppSec 0, { activeAppSec := none, root := none, trace := [] }, true) :=
  (start_load_failure
      { isEnabledErr := false, enabled := true, set := true, healthOk := true,
        newConfigErr := false, startRCErr := false, enableRemActErr := false,
        loadErr := true, loadOk := false, swapWAFNewHandle := some 8 }
      (newAppSec 0) { activeAppSec := none, root := none, trace := [] }).1
    rfl rfl

/-- Claim C5: when engine-handle construction fails, `swapWAF` returns an
error, leaves the installed handle's identity untouched, and leaves
`Enabled()` unchanged (the registry root and the whole shared state are
untouched, so the old protections stay active). -/
theorem swapWAF_failure_untouched (a : appsec) (g : GState) :
    swapWAF none a g = (a, g, true)
    ∧ (swapWAF none a g).1.wafHandle = a.wafHandle
    ∧ (swapWAF none a g).2.1.root = g.root
    ∧ Enabled (swapWAF none a g).2.1 = Enabled g := by
  refine ⟨rfl, rfl, rfl, rfl⟩

/-- Claim C9: `stop()` is a no-op on a not-started instance, and the
package-level `Stop()` with no active instance leaves the whole state
unchanged (the active-instance pointer stays nil). -/
theorem stop_noop_when_not_started (a : appsec) (g : GState) :
    (a.started = false → appsec.stop a g = (a, g))
    ∧ (g.activeAppSec = none → Stop g = g) := by
  constructor
  · intro h
    simp [appsec.stop, h]
  · intro h
    cases g
    simp_all [Stop, setActiveAppSec]

/-- Witness for C9 at a concrete instance and state. -/
theorem stop_noop_when_not_started_witness :
    appsec.stop (newAppSec 3) { activeAppSec := none, root := none, trace := [] }
        = (newAppSec 3, { activeAppSec := none, root := none, trace := [] })
    ∧ Stop { activeAppSec := none, root := none, trace := [] }
        = { activeAppSec := none, root := none, trace := [] } :=
  ⟨(stop_noop_when_not_started (newAppSec 3)
      { activeAppSec := none, root := none, trace := [] }).1 rfl,
   (stop_noop_when_not_started (newAppSec 3)
      { activeAppSec := none, root := none, trace := [] }).2 rfl⟩

/-- Claim C10: when `waf.Health()` reports unusable (and `Start` was not
already stopped by the explicit-disable check), `Start` returns with the state
completely unchanged: no instance is constructed or published, and `Enabled()`
stays false when it was false. -/
theorem start_health_failure (env : Env) (newId : Nat) (g : GState)
    (hie : env.isEnabledErr = false)
    (hd : (env.set && !env.enabled) = false)
    (hh : env.healthOk = false) :
    Start env newId g = g
    ∧ (Enabled g = false → Enabled (Start env newId g) = false) := by
  have hs : Start env newId g = g := by
    simp [Start, hie, hd, hh]
  exact ⟨hs, fun h => by rw [hs]; exact h⟩

/-- Witness for C10: `Health` unusable with local enablement explicitly true. -/
theorem start_health_failure_witness :
    Start
        { isEnabledErr := false, enabled := true, set := true, healthOk := false,
          newConfigErr := false, startRCErr := false, enableRemActErr := false,
          loadErr := false, loadOk := true, swapWAFNewHandle := some 8 }
        0 { activeAppSec := none, root := none, trace := [] }
      = { activeAppSec := none, root := none, trace := [] } :=
  (start_health_failure
      { isEnabledErr := false, enabled := true, set := true, healthOk := false,
        newConfigErr := false, startRCErr := false, enableRemActErr := false,
        loadErr := false, loadOk := true, swapWAFNewHandle := some 8 }
      0 { activeAppSec := none, root := none, trace := [] }
      rfl rfl rfl).1

/-- Claim C6: on a started instance, `stop()` performs its effects in order:
clear `started`, disable RC blocking, swap the registry root to nil, close the
engine handle (when present), and stop the rate limiter last. -/
theorem stop_effect_order (a : appsec) (g : GState) (h : a.started = true) :
    (appsec.stop a g).2.trace
      = g.trace
        ++ [Event.setStartedFalseEv a.id, Event.disableRCBlockingEv a.id,
            Event.swapRootEv none]
        ++ (match a.wafHandle with
            | some hdl => [Event.closeHandleEv hdl]
            | none => [])
        ++ [Event.limiterStopEv a.id] := by
  simp only [appsec.stop, h]
  cases hw : a.wafHandle <;> simp [hw]

/-- Witness for C6 at the concrete started instance `aRunning`. -/
theorem stop_effect_order_witness :
    (appsec.stop aRunning gActive).2.trace
      = gActive.trace
        ++ [Event.setStartedFalseEv aRunning.id,
            Event.disableRCBlockingEv aRunning.id, Event.swapRootEv none]
        ++ (match aRunning.wafHandle with
            | some hdl => [Event.closeHandleEv hdl]
            | none => [])
        ++ [Event.limiterStopEv aRunning.id] :=
  stop_effect_order aRunning gActive rfl

/-- Method `start()` preserves the handle invariant: on failure the `started` and
`wafHandle` fields are the instance's previous ones (or the old handle is
kept); on success both are set. -/
theorem start_preserves_inv (env : Env) (a : appsec) (g : GState)
    (h : HandleInv a) : HandleInv (appsec.start env a g).1 := by
  unfold HandleInv at h ⊢
  unfold appsec.start
  split
  · exact h
  · cases hw : env.swapWAFNewHandle with
    | none =>
      simpa [swapWAF, hw] using h
    | some hh =>
      simp [swapWAF, hw]

/-- Method `stop()` preserves the handle invariant: it either is a no-op or leaves
the instance not started. -/
theorem stop_preserves_inv (a : appsec) (g : GState)
    (h : HandleInv a) : HandleInv (appsec.stop a g).1 := by
  unfold HandleInv at h ⊢
  unfold appsec.stop
  split
  · exact h
  · cases hw : a.wafHandle <;> simp [hw]

/-- Method `stop()` on a started instance always nils the engine handle. -/
theorem stop_clears_handle (a : appsec) (g : GState) (h : a.started = true) :
    (appsec.stop a g).1.wafHandle = none := by
  simp only [appsec.stop, h]
  cases hw : a.wafHandle <;> simp [hw]

/-- The handle invariant is preserved along any sequence of `start`/`stop`
calls. -/
theorem runMgr_preserves_inv (ops : List MgrOp) (a : appsec) (g : GState)
    (h : HandleInv a) : HandleInv (runMgr ops a g).1 := by
  induction ops generalizing a g with
  | nil => exact h
  | cons op rest ih =>
    cases op with
    | startOp env => exact ih _ _ (start_preserves_inv env a g h)
    | stopOp => exact ih _ _ (stop_preserves_inv a g h)

/-- Claim C4: along every sequence of `start`/`stop` calls from a fresh
instance, `started == true` implies the engine handle is non-null, and
`stop()` on a started instance leaves the handle null. -/
theorem started_implies_handle (ops : List MgrOp) (id : Nat) (g : GState) :
    ((runMgr ops (newAppSec id) g).1.started = true →
      (runMgr ops (newAppSec id) g).1.wafHandle.isSome = true)
    ∧ ∀ g2, (runMgr ops (newAppSec id) g).1.started = true →
        (appsec.stop (runMgr ops (newAppSec id) g).1 g2).1.wafHandle = none := by
  refine ⟨runMgr_preserves_inv ops _ g ?_, fun g2 hs => stop_clears_handle _ g2 hs⟩
  intro hs
  simp [newAppSec] at hs

/-- Witness for C4: one successful `start` yields a started instance with a
handle, and `stop` then nils the handle. -/
theorem started_implies_handle_witness :
    (runMgr [MgrOp.startOp envOK] (newAppSec 0) gEmpty).1.wafHandle.isSome = true
    ∧ (appsec.stop (runMgr [MgrOp.startOp envOK] (newAppSec 0) gEmpty).1
        gEmpty).1.wafHandle = none :=
  ⟨(started_implies_handle [MgrOp.startOp envOK] 0 gEmpty).1 rfl,
   (started_implies_handle [MgrOp.startOp envOK] 0 gEmpty).2 gEmpty rfl⟩

/-- Whether `start()` errors depends only on the collaborator outcomes. -/
theorem start_err_eq (env : Env) (a : appsec) (g : GState) :
    (appsec.start env a g).2.2 = startErrs env := by
  unfold appsec.start startErrs
  split
  · simp_all
  · cases hw : env.swapWAFNewHandle <;> simp_all [swapWAF]

/-- Method `start()` never touches the process-wide active-instance pointer. -/
theorem start_preserves_active (env : Env) (a : appsec) (g : GState) :
    (appsec.start env a g).2.1.activeAppSec = g.activeAppSec := by
  unfold appsec.start
  split
  · rfl
  · cases hw : env.swapWAFNewHandle with
    | none => simp [swapWAF, hw]
    | some hh => cases hw2 : a.wafHandle <;> simp [swapWAF, hw, hw2]

/-- Claim C7: when the new instance's `start()` or its remote-activation
enabling fails, package-level `Start` leaves the active-instance pointer
unchanged (the instance is never published) and stops the instance's
remote-configuration client. -/
theorem start_failure_not_published (env : Env) (newId : Nat) (g : GState)
    (hie : env.isEnabledErr = false)
    (hd : (env.set && !env.enabled) = false)
    (hh : env.healthOk = true)
    (hc : env.newConfigErr = false)
    (hfail : (env.set = true ∧ startErrs env = true)
      ∨ (env.set = false ∧ env.enableRemActErr = true)) :
    (Start env newId g).activeAppSec = g.activeAppSec
    ∧ Event.stopRCEv newId ∈ (Start env newId g).trace := by
  rcases hfail with ⟨hset, herr⟩ | ⟨hset, herr⟩
  · have h2 := start_err_eq env
      { newAppSec newId with rcStarted := !env.startRCErr }
      { g with trace := g.trace ++ [Event.startRCEv newId] }
    rw [herr] at h2
    rcases hrun : appsec.start env
        { newAppSec newId with rcStarted := !env.startRCErr }
        { g with trace := g.trace ++ [Event.startRCEv newId] }
      with ⟨a2, g2, e2⟩
    rw [hrun] at h2
    have hact := start_preserves_active env
      { newAppSec newId with rcStarted := !env.startRCErr }
      { g with trace := g.trace ++ [Event.startRCEv newId] }
    rw [hrun] at hact
    simp only at h2 hact
    subst h2
    have hen : env.enabled = true := by simpa [hset] using hd
    simp [Start, hie, hd, hh, hc, hset, hen, hrun, hact]
  · simp [Start, hie, hd, hh, hc, hset, herr]

/-- Witness for C7: `start()` fails at the ruleset swap while an instance is
active; the old instance stays published and the new client is stopped. -/
theorem start_failure_not_published_witness :
    (Start envSwapFail 1 gActive).activeAppSec = gActive.activeAppSec
    ∧ Event.stopRCEv 1 ∈ (Start envSwapFail 1 gActive).trace :=
  start_failure_not_published envSwapFail 1 gActive rfl rfl rfl rfl
    (Or.inl ⟨rfl, rfl⟩)

/-- Counterexample to Claim C8: a `start()` that fails at the ruleset swap has
already started the limiter; the instance is left not started, a subsequent
`stop()` is a no-op, and the limiter's ticking is still running. -/
theorem limiter_leak_after_failed_start :
    (appsec.start envSwapFail (newAppSec 0) gEmpty).2.2 = true
    ∧ (appsec.start envSwapFail (newAppSec 0) gEmpty).1.started = false
    ∧ appsec.stop (appsec.start envSwapFail (newAppSec 0) gEmpty).1
        (appsec.start envSwapFail (newAppSec 0) gEmpty).2.1
      = ((appsec.start envSwapFail (newAppSec 0) gEmpty).1,
         (appsec.start envSwapFail (newAppSec 0) gEmpty).2.1)
    ∧ (appsec.stop (appsec.start envSwapFail (newAppSec 0) gEmpty).1
        (appsec.start envSwapFail (newAppSec 0) gEmpty).2.1).1.limiterRunning
      = true := by
  refine ⟨rfl, rfl, rfl, rfl⟩

/-- Claim C8 (amended): a successful `start()` leaves the limiter running and
the instance started, and `stop()` on a started instance stops the limiter;
but when `start()` fails after creating and starting the limiter (ruleset-swap
failure), the instance is left not started with the limiter still running, and
a subsequent `stop()` is a no-op that does not stop its ticking. -/
theorem limiter_lifecycle (env : Env) (a : appsec) (g : GState) :
    ((appsec.start env a g).2.2 = false →
      (appsec.start env a g).1.limiterRunning = true
      ∧ (appsec.start env a g).1.started = true)
    ∧ (a.started = true → (appsec.stop a g).1.limiterRunning = false)
    ∧ (a.started = false →
        (appsec.stop a g).1.limiterRunning = a.limiterRunning)
    ∧ ((env.loadErr && !env.loadOk) = false → env.swapWAFNewHandle = none →
        (appsec.start env a g).1.limiterRunning = true
        ∧ (appsec.start env a g).1.started = a.started) := by
  refine ⟨?_, ?_, ?_, ?_⟩
  · unfold appsec.start
    split
    · intro he
      cases he
    · cases hw : env.swapWAFNewHandle with
      | none =>
        intro he
        simp [swapWAF] at he
      | some hh =>
        intro _
        simp [swapWAF]
  · intro h
    simp only [appsec.stop, h]
    cases hw : a.wafHandle <;> simp [hw]
  · intro h
    simp [appsec.stop, h]
  · intro hg hw
    simp [appsec.start, hg, swapWAF, hw]

/-- Witness for the amended C8: a successful start leaves the limiter running,
and stop on the started instance `aRunning` stops it. -/
theorem limiter_lifecycle_witness :
    (appsec.start envOK (newAppSec 0) gEmpty).1.limiterRunning = true
    ∧ (appsec.stop aRunning gActive).1.limiterRunning = false :=
  ⟨((limiter_lifecycle envOK (newAppSec 0) gEmpty).1 rfl).1,
   (limiter_lifecycle envOK aRunning gActive).2.1 rfl⟩

/-- Counterexample to Claim C1: installing instance 1 (B) via `Start` while
instance 0 (A) is active and started runs B's start effects first; A's
teardown effects do not all precede B's start effects in the trace. -/
theorem new_start_effects_precede_old_stop :
    Enabled gActive = true
    ∧ (Start envOK 1 gActive).activeAppSec.isSome = true
    ∧ allBefore (isStopEffectOf 0) (isStartEffectOf 1)
        (Start envOK 1 gActive).trace = false := by
  refine ⟨rfl, rfl, by decide⟩

/-- Claim C1 (amended): when package-level `Start` installs instance B while
instance A is active and started (explicit local enablement, all collaborators
succeeding), B's Start effects become observable before A is stopped: the
trace is B's creation and start effects followed by A's full teardown, which
happens inside the publication step (`setActiveAppSec`) before B is stored;
A's teardown swaps the registry root to nil, so the final root is detached
(removing B's freshly attached hook); and at no point are both A's and B's
hooks attached, the registry being a single atomically-swapped root slot. -/
theorem start_over_active_order (env : Env) (bId hA hB : Nat) (a : appsec)
    (g : GState)
    (hact : g.activeAppSec = some a)
    (hstarted : a.started = true)
    (hhandle : a.wafHandle = some hA)
    (hie : env.isEnabledErr = false) (hset : env.set = true)
    (hen : env.enabled = true) (hh : env.healthOk = true)
    (hc : env.newConfigErr = false) (hl : env.loadErr = false)
    (hw : env.swapWAFNewHandle = some hB) :
    (Start env bId g).trace
      = g.trace
        ++ [Event.startRCEv bId, Event.limiterStartEv bId,
            Event.swapRootEv (some hB), Event.enableRCBlockingEv bId,
            Event.setStartedTrueEv bId, Event.stopRCEv a.id,
            Event.setStartedFalseEv a.id, Event.disableRCBlockingEv a.id,
            Event.swapRootEv none, Event.closeHandleEv hA,
            Event.limiterStopEv a.id]
    ∧ (Start env bId g).root = none
    ∧ (hA ≠ hB → ∀ pre suf, (Start env bId g).trace = pre ++ suf →
        ¬(rootAt g.root pre = some hA ∧ rootAt g.root pre = some hB)) := by
  refine ⟨?_, ?_, ?_⟩
  · simp [Start, hie, hset, hen, hh, hc, appsec.start, hl, swapWAF, hw,
      newAppSec, setActiveAppSec, hact, appsec.stop, hstarted, hhandle]
  · simp [Start, hie, hset, hen, hh, hc, appsec.start, hl, swapWAF, hw,
      newAppSec, setActiveAppSec, hact, appsec.stop, hstarted, hhandle]
  · rintro hne pre suf - ⟨h1, h2⟩
    rw [h1] at h2
    exact hne (Option.some.inj h2)

/-- Witness for the amended C1 at the concrete active state `gActive`. -/
theorem start_over_active_order_witness :
    (Start envOK 1 gActive).trace
      = gActive.trace
        ++ [Event.startRCEv 1, Event.limiterStartEv 1,
            Event.swapRootEv (some 8), Event.enableRCBlockingEv 1,
            Event.setStartedTrueEv 1, Event.stopRCEv aRunning.id,
            Event.setStartedFalseEv aRunning.id,
            Event.disableRCBlockingEv aRunning.id, Event.swapRootEv none,
            Event.closeHandleEv 7, Event.limiterStopEv aRunning.id]
    ∧ (Start envOK 1 gActive).root = none :=
  ⟨(start_over_active_order envOK 1 7 8 aRunning gActive rfl rfl rfl rfl rfl
      rfl rfl rfl rfl rfl).1,
   (start_over_active_order envOK 1 7 8 aRunning gActive rfl rfl rfl rfl rfl
      rfl rfl rfl rfl rfl).2.1⟩

end DDTraceGo.Appsec
